import Mathlib

/-!
Verification of the GCL `sqlWriter` SQL composer (`source/SQLWriter.cpp`).

The definitions below are a shallow embedding of the C++ source: each C++
member function becomes a Lean function on an explicit `sqlWriter` state
record, `std::optional` becomes `Option`, fallible functions (those that can
reach a `RUNTIME_ERROR` / `RUNTIME_ASSERT` / `CODE_ERROR`) return
`Except GCLError _`, and string accumulation loops with a `first` flag become
structural folds.  `std::uint64_t` values appear only as stored limits and
offsets (no arithmetic overflow is possible), so they are embedded as `Nat`.
-/

set_option maxRecDepth 4096

/-- Separator-threading fold mirroring the C++ accumulation loops of the form
`if (first) first = false; else s += sep; s += render(x);`.  The second
component is the final value of the `first` flag (the flag survives a loop
over an empty list). -/
def sepFoldSt (sep : String) (render : α → String) : List α → Bool → String × Bool
  | [], first => ("", first)
  | x :: xs, first =>
    let rest := sepFoldSt sep render xs false
    ((if first then "" else sep) ++ render x ++ rest.1, rest.2)

/-- A loop that starts with a fresh `first = true` flag. -/
def sepFold (sep : String) (render : α → String) (l : List α) : String :=
  (sepFoldSt sep render l true).1

/-- Specification-side join of a list of strings with a separator. -/
def joinSep (sep : String) : List String → String
  | [] => ""
  | [x] => x
  | x :: xs => x ++ sep ++ joinSep sep xs

/-- `std::string::find_first_of(c, start)` on the character list of a line:
the index of the first occurrence of `c` at position `start` or later;
`none` models `npos`. -/
def findChFrom (l : List Char) (c : Char) (start : Nat) : Option Nat :=
  match List.findIdx? (fun d => d == c) (l.drop start) with
  | some i => some (start + i)
  | none => none

/-- `find_first_of(c, from)` where `from` is itself a possibly-`npos`
position: searching from `npos` yields `npos`. -/
def findChFromOpt (l : List Char) (c : Char) : Option Nat → Option Nat
  | some s => findChFrom l c s
  | none => none

/-- Comparison of two possibly-`npos` positions (`npos` compares greater than
every real position, and not less than itself). -/
def posLt : Option Nat → Option Nat → Bool
  | some x, some y => x < y
  | some _, none => true
  | none, _ => false

/-- `substr(s + 1, e - s - 1)` extracting a bracketed token; an `npos` end
position takes the rest of the line (the C++ huge length is clamped by
`substr`). -/
def extractTok (l : List Char) (s : Nat) : Option Nat → String
  | some e => String.mk ((l.drop (s + 1)).take (e - s - 1))
  | none => String.mk (l.drop (s + 1))

/-- `substr(0, pos)` where `pos` may be `npos` (whole line). -/
def substrTo (l : List Char) : Option Nat → String
  | some p => String.mk (l.take p)
  | none => String.mk l

/-- `std::isspace` for the default locale, as used by `boost::trim`. -/
def isSpaceCh (c : Char) : Bool :=
  c == ' ' || c == '\t' || c == '\n' || c == '\r' || c == '\x0b' || c == '\x0c'

/-- `boost::trim`: strip whitespace from both ends. -/
def trimStr (s : String) : String :=
  String.mk (((s.data.dropWhile isSpaceCh).reverse.dropWhile isSpaceCh).reverse)

/-- `std::string::front()`.  Calling it on an empty string is undefined
behaviour in C++; the embedding returns the NUL character there. -/
def strFront (s : String) : Char := s.data.headD (Char.ofNat 0)

/-- The SQL dialect enumeration referenced by `SQLWriter.cpp`
(`MYSQL`, `MICROSOFT`, `POSTGRE`). -/
inductive EDialect
  | MYSQL
  | MICROSOFT
  | POSTGRE
  deriving DecidableEq, Repr

/-- The query-type enumeration (`qt_none`, `qt_select`, `qt_insert`,
`qt_update`, `qt_delete`, `qt_upsert`). -/
inductive EQueryType
  | qt_none
  | qt_select
  | qt_insert
  | qt_update
  | qt_delete
  | qt_upsert
  deriving DecidableEq, Repr

/-- Order directions for `orderBy`. -/
inductive EOrderBy
  | ASC
  | DESC
  deriving DecidableEq, Repr

/-- Join kinds (`JOIN_LEFT`, `JOIN_RIGHT`, `JOIN_INNER`, `JOIN_FULL`). -/
inductive EJoin
  | JOIN_LEFT
  | JOIN_RIGHT
  | JOIN_INNER
  | JOIN_FULL
  deriving DecidableEq, Repr

/-- Modelled from the spec: the `parameter` tagged value (the variant class
lives in the `SQLWriter.h` header / SCL library, which is not under `src/`).
The spec describes it as a tagged value — Integer, Text, or
BindPlaceholder(name) — whose `to_string` renders the integer in decimal and
returns the raw text or placeholder name otherwise.  The rendering *logic*
(quoting, `:` prefixing) is in `SQLWriter.cpp` and is embedded separately. -/
inductive SqlParameter
  | intVal (i : Int)
  | text (s : String)
  | bind (name : String)
  deriving DecidableEq, Repr

/-- `to_string` of a parameter (type-tag dispatch target of the C++
`typeid` comparisons). -/
def paramToString : SqlParameter → String
  | .intVal i => toString i
  | .text s => s
  | .bind n => n

/-- The error conditions `SQLWriter.cpp` can raise (`RUNTIME_ERROR`,
`RUNTIME_ASSERT`, `CODE_ERROR`).  Map-file errors carry the file path and
the 1-based line number that the C++ code reports. -/
inductive GCLError
  | unknownDialect
  | noSelectFields
  | noFromField
  | noSetFields
  | upsertNotMysql
  | codeError
  | mapNeedsToken (path : String) (line : Nat)
  | mapSyntaxError (path : String) (line : Nat)
  | mapInvalidTableName (path : String) (line : Nat)
  | mapInvalidColumnName (path : String) (line : Nat)
  | mapInvalidCommand (path : String) (line : Nat)
  deriving DecidableEq, Repr

/-- `SColumnData`: per-column record holding the (logical, physical) name
pair. -/
structure SColumnData where
  columnName : String × String
  deriving DecidableEq, Repr

/-- `STableData`: per-table record holding the (logical, physical) table name
pair and the column map. -/
structure STableData where
  tableName : String × String
  columnData : List (String × SColumnData)
  deriving DecidableEq, Repr

/-- `TDatabaseMap`: the table-name-keyed map, embedded as an association
list with unique keys. -/
abbrev TDatabaseMap := List (String × STableData)

/-- `std::map::find` on the embedded association list. -/
def alFind (m : TDatabaseMap) (k : String) : Option STableData :=
  (m.find? (fun p => p.1 == k)).map (fun p => p.2)

/-- Update the entry at a key (the key is known to be present when this is
used, matching `operator[]` on an existing key). -/
def alUpdate (m : TDatabaseMap) (k : String) (f : STableData → STableData) :
    TDatabaseMap :=
  m.map (fun p => if p.1 == k then (p.1, f p.2) else p)

/-- `parameterJoin`: the 5-tuple `(leftTable, leftColumn, join, rightTable,
rightColumn)` accessed via `std::get<0..4>` in the C++. -/
structure ParameterJoin where
  t0 : String
  t1 : String
  t2 : EJoin
  t3 : String
  t4 : String
  deriving DecidableEq, Repr

/-- The mutable state of a `sqlWriter` instance: the dialect, the active
query type, and all accumulated clause state, as read off the member
accesses of `SQLWriter.cpp`. -/
structure sqlWriter where
  dialect : EDialect
  queryType : EQueryType
  selectFields : List String
  fromFields : List (String × String)
  joinFields : List ParameterJoin
  whereFields : List (String × String × SqlParameter)
  orderByFields : List (String × EOrderBy)
  setFields : List (String × SqlParameter)
  valueFields : List (List SqlParameter)
  insertTable : String
  updateTable : String
  deleteTable : String
  limitValue : Option Nat
  offsetValue : Option Nat
  countValue : Option String
  distinct_ : Bool
  maxFields : List (String × String)
  minFields : List (String × String)
  databaseMap : TDatabaseMap
  deriving DecidableEq, Repr

/-- `std::numeric_limits<std::uint64_t>::max()`. -/
def UINT64MAX : Nat := 18446744073709551615

/-- `sqlWriter::getColumnMap` — the documented pass-through (Bug# 0000193):
returns its input unchanged. -/
def getColumnMap (columnName : String) : String := columnName

/-- Value rendering shared by `createInsertQuery` and `createSetClause`:
text is single-quoted; a bind value keeps its name if it already starts with
`:` or `?` and otherwise gets a `:` prefix; anything else renders via
`to_string`. -/
def renderValue : SqlParameter → String
  | .text s => "'" ++ s ++ "'"
  | .bind n =>
      if strFront n == ':' then n
      else if strFront n == '?' then n
      else ":" ++ n
  | v => paramToString v

/-- `sqlWriter::createInsertQuery`. -/
def createInsertQuery (w : sqlWriter) : String :=
  "INSERT INTO " ++ w.insertTable ++ "(" ++ sepFold ", " id w.selectFields
    ++ ") VALUES "
    ++ sepFold ", " (fun row => "(" ++ sepFold ", " renderValue row ++ ")")
        w.valueFields

/-- `sqlWriter::createLimitClause`.  The `switch` has cases for `MYSQL` and
`POSTGRE` only; every other dialect (in particular `MICROSOFT`) falls into
the `default` branch, which raises `E_SQLWRITER_UNKNOWNDIALECT`. -/
def createLimitClause (w : sqlWriter) : Except GCLError String :=
  match w.dialect with
  | .MYSQL =>
    .ok (match w.offsetValue with
      | some o =>
          "LIMIT " ++ toString o ++ ", "
            ++ toString (match w.limitValue with
                          | some l => l
                          | none => UINT64MAX) ++ " "
      | none =>
          match w.limitValue with
          | some l => "LIMIT " ++ toString l ++ " "
          | none => "")
  | .POSTGRE => .ok ""
  | _ => .error .unknownDialect

/-- `sqlWriter::createSetClause` (raises the `RUNTIME_ASSERT` when
`setFields` is empty). -/
def createSetClause (w : sqlWriter) : Except GCLError String :=
  if w.setFields.isEmpty then .error .noSetFields
  else .ok ("SET " ++ sepFold ", " (fun e => e.1 ++ " = " ++ renderValue e.2)
    w.setFields)

/-- One predicate of `sqlWriter::createWhereClause`: `(col op val)` with
text values single-quoted and every other value (bind values included)
rendered raw. -/
def whereEntry (t : String × String × SqlParameter) : String :=
  "(" ++ getColumnMap t.1 ++ " " ++ t.2.1
    ++ (match t.2.2 with
        | .text s => " '" ++ s ++ "')"
        | v => " " ++ paramToString v ++ ")")

/-- `sqlWriter::createWhereClause`: always starts with `" WHERE "`, then the
predicates joined by `" AND "`. -/
def createWhereClause (w : sqlWriter) : String :=
  " WHERE " ++ sepFold " AND " whereEntry w.whereFields

/-- `sqlWriter::createUpdateQuery`. -/
def createUpdateQuery (w : sqlWriter) : Except GCLError String :=
  match createSetClause w with
  | .error e => .error e
  | .ok sc =>
      .ok ("UPDATE " ++ w.updateTable ++ " " ++ sc ++ createWhereClause w)

/-- `sqlWriter::createDeleteQuery`. -/
def createDeleteQuery (w : sqlWriter) : String :=
  "DELETE FROM " ++ getColumnMap w.deleteTable ++ createWhereClause w

/-- Value rendering in `createUpsertQuery`: text quoted, everything else raw
(no bind prefixing there). -/
def upsertValueStr : SqlParameter → String
  | .text s => "'" ++ s ++ "'"
  | v => paramToString v

/-- `sqlWriter::createUpsertQuery` (MySQL only; asserts otherwise).  The
`firstValue` flag is shared between the where-derived and set-derived
insert columns, which the threaded fold reproduces. -/
def createUpsertQuery (w : sqlWriter) : Except GCLError String :=
  if w.dialect ≠ .MYSQL then .error .upsertNotMysql
  else
    let p1 := sepFoldSt ", " (fun t => getColumnMap t.1) w.whereFields true
    let v1 := sepFoldSt ", " (fun t => upsertValueStr t.2.2) w.whereFields true
    let p2 := sepFoldSt ", " (fun e => getColumnMap e.1) w.setFields p1.2
    let v2 := sepFoldSt ", " (fun e => upsertValueStr e.2) w.setFields p1.2
    let updates :=
      sepFold ", " (fun e => getColumnMap e.1 ++ " = " ++ upsertValueStr e.2)
        w.setFields
    .ok ("INSERT INTO " ++ w.insertTable ++ "(" ++ (p1.1 ++ p2.1)
      ++ ") VALUES (" ++ (v1.1 ++ v2.1) ++ ") "
      ++ "ON DUPLICATE KEY UPDATE " ++ updates)

/-- One table source of `sqlWriter::createFromClause`.  The C++ appends
`" AS " + tableAlias` when the stored alias is non-empty, but `tableAlias`
is a local variable that is never assigned, so the appended alias text is
always the empty string. -/
def fromEntry (p : String × String) : String :=
  p.1 ++ (if p.2.length ≠ 0 then " AS " else "")

/-- `sqlWriter::createFromClause`. -/
def createFromClause (w : sqlWriter) : String :=
  " FROM " ++ sepFold ", " fromEntry w.fromFields

/-- One entry of `sqlWriter::createJoinClause` (note the missing leading
space on `"FULL JOIN "`, faithful to the source). -/
def joinEntry (e : ParameterJoin) : String :=
  (match e.t2 with
    | .JOIN_LEFT => " LEFT JOIN "
    | .JOIN_RIGHT => " RIGHT JOIN "
    | .JOIN_INNER => " INNER JOIN "
    | .JOIN_FULL => "FULL JOIN ")
    ++ e.t3 ++ " ON " ++ e.t0 ++ "." ++ e.t1 ++ "=" ++ e.t3 ++ "." ++ e.t4

/-- `sqlWriter::createJoinClause` (entries concatenated with no separators). -/
def createJoinClause (w : sqlWriter) : String :=
  (w.joinFields.map joinEntry).foldl (fun a b => a ++ b) ""

/-- `sqlWriter::createOrderByClause`. -/
def createOrderByClause (w : sqlWriter) : String :=
  " ORDER BY "
    ++ sepFold ", "
        (fun e => getColumnMap e.1 ++ " "
          ++ (match e.2 with | .ASC => "ASC " | .DESC => "DESC "))
        w.orderByFields

/-- `sqlWriter::createSelectClause`.  `TOP n ` is emitted when the dialect
is `MICROSOFT` and a limit is set; the projection sections (select fields,
COUNT, MAX entries, MIN entries) share one `first` flag. -/
def createSelectClause (w : sqlWriter) : String :=
  let top :=
    match w.dialect, w.limitValue with
    | .MICROSOFT, some l => "TOP " ++ toString l ++ " "
    | _, _ => ""
  let dst := if w.distinct_ then "DISTINCT " else ""
  let s1 := sepFoldSt ", " id w.selectFields true
  let s2 :=
    match w.countValue with
    | some cv =>
        ((if s1.2 then "" else ", ")
          ++ (if cv == "*" then "COUNT(*) " else "COUNT(" ++ cv ++ ") "),
         false)
    | none => ("", s1.2)
  let s3 := sepFoldSt ", "
    (fun e => "MAX(" ++ e.1 ++ ")"
      ++ (if e.2.isEmpty then "" else " AS " ++ e.2)) w.maxFields s2.2
  let s4 := sepFoldSt ", "
    (fun e => "MIN(" ++ e.1 ++ ")"
      ++ (if e.2.isEmpty then "" else " AS " ++ e.2)) w.minFields s3.2
  "SELECT " ++ top ++ dst ++ s1.1 ++ s2.1 ++ s3.1 ++ s4.1

/-- `sqlWriter::createSelectQuery`: requires a projection source and a FROM
source (raising `E_SQLWRITER_NOSELECTFIELDS` / `E_SQLWRITER_NOFROMFIELD`
otherwise), appends join/where/orderBy clauses only when non-empty, and
always appends the limit clause (which may itself raise). -/
def createSelectQuery (w : sqlWriter) : Except GCLError String :=
  if ¬w.selectFields.isEmpty ∨ w.countValue.isSome ∨ ¬w.maxFields.isEmpty
      ∨ ¬w.minFields.isEmpty then
    if ¬w.fromFields.isEmpty then
      match createLimitClause w with
      | .error e => .error e
      | .ok lim =>
        .ok (createSelectClause w ++ createFromClause w
          ++ (if ¬w.joinFields.isEmpty then createJoinClause w else "")
          ++ (if ¬w.whereFields.isEmpty then createWhereClause w else "")
          ++ (if ¬w.orderByFields.isEmpty then createOrderByClause w else "")
          ++ lim)
    else .error .noFromField
  else .error .noSelectFields

/-- `sqlWriter::string`: dispatch on the active query type; the `default`
branch (`qt_none`) raises `CODE_ERROR`. -/
def sqlWriter.string (w : sqlWriter) : Except GCLError String :=
  match w.queryType with
  | .qt_select => createSelectQuery w
  | .qt_insert => .ok (createInsertQuery w)
  | .qt_update => createUpdateQuery w
  | .qt_delete => .ok (createDeleteQuery w)
  | .qt_upsert => createUpsertQuery w
  | .qt_none => .error .codeError

/-- `sqlWriter::verifyOperator`. -/
def verifyOperator (oper : String) : Bool :=
  (oper == "=") || (oper == "<>") || (oper == "!=") || (oper == ">")
    || (oper == "<") || (oper == ">=") || (oper == "<=")
    || (oper == "BETWEEN") || (oper == "LIKE") || (oper == "IN")

/-- `sqlWriter::resetQuery`: clears exactly the fields the C++ lists —
note it does *not* clear `deleteTable` (nor the dialect or the database
map). -/
def sqlWriter.resetQuery (w : sqlWriter) : sqlWriter :=
  { w with
    selectFields := []
    fromFields := []
    whereFields := []
    insertTable := ""
    valueFields := []
    orderByFields := []
    joinFields := []
    limitValue := none
    offsetValue := none
    countValue := none
    distinct_ := false
    maxFields := []
    minFields := []
    updateTable := ""
    setFields := []
    queryType := .qt_none }

/-- `sqlWriter::resetWhere`: clears only the predicates. -/
def sqlWriter.resetWhere (w : sqlWriter) : sqlWriter :=
  { w with whereFields := [] }

/-- `sqlWriter::select()` (no-argument overload): resets when a query type
is active, then enters `qt_select`. -/
def sqlWriter.select (w : sqlWriter) : sqlWriter :=
  let w := if w.queryType ≠ .qt_none then w.resetQuery else w
  { w with queryType := .qt_select }

/-- `sqlWriter::select(fields)`: calls `select()` then pushes the fields. -/
def sqlWriter.selectF (w : sqlWriter) (fields : List String) : sqlWriter :=
  let w := w.select
  { w with selectFields := w.selectFields ++ fields }

/-- `sqlWriter::select(tableName, fields)`: calls `select()` then pushes
each field qualified as `tableName.field`. -/
def sqlWriter.selectT (w : sqlWriter) (tableName : String)
    (fields : List String) : sqlWriter :=
  let w := w.select
  { w with selectFields :=
      w.selectFields ++ fields.map (fun e => tableName ++ "." ++ e) }

/-- `sqlWriter::insertInto(tableName)`: resets when a query type is active,
enters `qt_insert`, stores the table. -/
def sqlWriter.insertInto (w : sqlWriter) (tableName : String) : sqlWriter :=
  let w := if w.queryType ≠ .qt_none then w.resetQuery else w
  { w with queryType := .qt_insert, insertTable := tableName }

/-- `sqlWriter::insertInto(tableName, fields)`: as `insertInto` and pushes
the fields onto `selectFields` (used as the insert column list). -/
def sqlWriter.insertIntoF (w : sqlWriter) (tableName : String)
    (fields : List String) : sqlWriter :=
  let w := if w.queryType ≠ .qt_none then w.resetQuery else w
  { w with queryType := .qt_insert, insertTable := tableName,
           selectFields := w.selectFields ++ fields }

/-- `sqlWriter::update(tableName)`. -/
def sqlWriter.update (w : sqlWriter) (tableName : String) : sqlWriter :=
  let w := if w.queryType ≠ .qt_none then w.resetQuery else w
  { w with queryType := .qt_update, updateTable := tableName }

/-- `sqlWriter::deleteFrom(tableName)`. -/
def sqlWriter.deleteFrom (w : sqlWriter) (tableName : String) : sqlWriter :=
  let w := if w.queryType ≠ .qt_none then w.resetQuery else w
  { w with queryType := .qt_delete, deleteTable := tableName }

/-- `sqlWriter::upsert(tableName)` (stores into `insertTable`). -/
def sqlWriter.upsert (w : sqlWriter) (tableName : String) : sqlWriter :=
  let w := if w.queryType ≠ .qt_none then w.resetQuery else w
  { w with queryType := .qt_upsert, insertTable := tableName }

/-- `sqlWriter::from(fromString, alias)`: appends one FROM source. -/
def sqlWriter.from1 (w : sqlWriter) (fromString aliasName : String) : sqlWriter :=
  { w with fromFields := w.fromFields ++ [(fromString, aliasName)] }

/-- `sqlWriter::from(fields)`: appends each table with an empty alias. -/
def sqlWriter.fromList (w : sqlWriter) (fields : List String) : sqlWriter :=
  { w with fromFields := w.fromFields ++ fields.map (fun e => (e, "")) }

/-- `sqlWriter::join(fields)`. -/
def sqlWriter.join (w : sqlWriter) (fields : List ParameterJoin) : sqlWriter :=
  { w with joinFields := w.joinFields ++ fields }

/-- `sqlWriter::where(fields)` (named `whereAdd` because `where` is a Lean
keyword). -/
def sqlWriter.whereAdd (w : sqlWriter)
    (fields : List (String × String × SqlParameter)) : sqlWriter :=
  { w with whereFields := w.whereFields ++ fields }

/-- `sqlWriter::set(columnName, value)`. -/
def sqlWriter.set1 (w : sqlWriter) (columnName : String)
    (value : SqlParameter) : sqlWriter :=
  { w with setFields := w.setFields ++ [(columnName, value)] }

/-- `sqlWriter::set(fields)`. -/
def sqlWriter.setList (w : sqlWriter)
    (fields : List (String × SqlParameter)) : sqlWriter :=
  { w with setFields := w.setFields ++ fields }

/-- `sqlWriter::values(fields)`: appends value rows. -/
def sqlWriter.values (w : sqlWriter)
    (fields : List (List SqlParameter)) : sqlWriter :=
  { w with valueFields := w.valueFields ++ fields }

/-- `sqlWriter::orderBy(fields)`. -/
def sqlWriter.orderBy (w : sqlWriter)
    (fields : List (String × EOrderBy)) : sqlWriter :=
  { w with orderByFields := w.orderByFields ++ fields }

/-- `sqlWriter::limit(limit)`. -/
def sqlWriter.limit (w : sqlWriter) (n : Nat) : sqlWriter :=
  { w with limitValue := some n }

/-- `sqlWriter::offset(offset)`. -/
def sqlWriter.offset (w : sqlWriter) (n : Nat) : sqlWriter :=
  { w with offsetValue := some n }

/-- `sqlWriter::count(countExpression)`. -/
def sqlWriter.count (w : sqlWriter) (countExpression : String) : sqlWriter :=
  { w with countValue := some countExpression }

/-- `sqlWriter::distinct()`. -/
def sqlWriter.distinct (w : sqlWriter) : sqlWriter :=
  { w with distinct_ := true }

/-- `sqlWriter::max(column, as)`. -/
def sqlWriter.max (w : sqlWriter) (column as : String) : sqlWriter :=
  { w with maxFields := w.maxFields ++ [(column, as)] }

/-- `sqlWriter::min(column, as)`. -/
def sqlWriter.min (w : sqlWriter) (column as : String) : sqlWriter :=
  { w with minFields := w.minFields ++ [(column, as)] }

/-- Modelled from the spec: a freshly constructed `sqlWriter` (the default
member initializers live in the `SQLWriter.h` header, which is not under
`src/`).  Per the spec a builder "is created empty (QueryKind=None)". -/
def initWriter (d : EDialect) : sqlWriter :=
  { dialect := d
    queryType := .qt_none
    selectFields := []
    fromFields := []
    joinFields := []
    whereFields := []
    orderByFields := []
    setFields := []
    valueFields := []
    insertTable := ""
    updateTable := ""
    deleteTable := ""
    limitValue := none
    offsetValue := none
    countValue := none
    distinct_ := false
    maxFields := []
    minFields := []
    databaseMap := [] }

/-- `sqlWriter::createTable(tableName)`: registers a new table (with no
physical mapping yet); returns `false` and leaves the map unchanged when the
table already exists. -/
def sqlWriter.createTable (w : sqlWriter) (tableName : String) :
    Bool × sqlWriter :=
  if (alFind w.databaseMap tableName).isSome then (false, w)
  else
    (true,
     { w with databaseMap :=
        w.databaseMap
          ++ [(tableName, { tableName := (tableName, ""), columnData := [] })] })

/-- `sqlWriter::createColumn(tableName, columnName)`: registers a column
under a declared table; `false` when the table is unknown or the column
already exists. -/
def sqlWriter.createColumn (w : sqlWriter) (tableName columnName : String) :
    Bool × sqlWriter :=
  match alFind w.databaseMap tableName with
  | none => (false, w)
  | some td =>
    if (td.columnData.find? (fun p => p.1 == columnName)).isSome then
      (false, w)
    else
      (true,
       { w with databaseMap :=
          alUpdate w.databaseMap tableName (fun t =>
            { t with columnData :=
                t.columnData
                  ++ [(columnName, { columnName := (columnName, "") })] }) })

/-- `sqlWriter::setColumnMap(tableName, columnName, columnMap)`: silently
no-ops unless both the table and the column are declared. -/
def sqlWriter.setColumnMap (w : sqlWriter)
    (tableName columnName columnMap : String) : sqlWriter :=
  match alFind w.databaseMap tableName with
  | none => w
  | some td =>
    if (td.columnData.find? (fun p => p.1 == columnName)).isSome then
      { w with databaseMap :=
          alUpdate w.databaseMap tableName (fun t =>
            { t with columnData :=
                t.columnData.map (fun p =>
                  if p.1 == columnName then
                    (p.1, { columnName := (columnName, columnMap) })
                  else p) }) }
    else w

/-- `sqlWriter::setTableMap(tableName, tableMap)`: silently no-ops unless
the table is declared. -/
def sqlWriter.setTableMap (w : sqlWriter) (tableName tableMap : String) :
    sqlWriter :=
  if (alFind w.databaseMap tableName).isSome then
    { w with databaseMap :=
        alUpdate w.databaseMap tableName (fun t =>
          { t with tableName := (tableName, tableMap) }) }
  else w

/-- The physical mapping recorded for a table. -/
def tableMapOf (w : sqlWriter) (t : String) : Option String :=
  (alFind w.databaseMap t).map (fun td => td.tableName.2)

/-- The physical mapping recorded for a column. -/
def columnMapOf (w : sqlWriter) (t c : String) : Option String :=
  (alFind w.databaseMap t).bind (fun td =>
    (td.columnData.find? (fun p => p.1 == c)).map
      (fun p => p.2.columnName.2))

/-- One iteration of the `readMapFile` loop body: parse and execute one
line of the map file.  Returns the updated `(currentTable, writer)` pair or
the error the C++ raises (each error site reports the file path and the
1-based line number, via the error message or `std::clog`).  Lines of
length at most 1 and lines starting with `;` are skipped.  When the command
is not `END`, a missing first bracketed token is an error before any
dispatch; a stale `szToken1` from a previous line is never read because the
`END` branch does not use it.  The `COLUMN` branch dereferences
`databaseMap.find(currentTable)` without a check; that lookup cannot fail on
any path reachable from `readMapFile` (a non-empty `currentTable` was
checked against the map by the `TABLE` branch), and the embedding marks the
unreachable case with `CODE_ERROR`. -/
def processLine (path : String) (lineNumber : Nat) (currentTable : String)
    (w : sqlWriter) (textLine : String) :
    Except GCLError (String × sqlWriter) :=
  if 1 < textLine.length ∧ textLine.data.head? ≠ some ';' then
    let l := textLine.data
    let spacePosn := findChFrom l ' ' 0
    let szCommand := trimStr (substrTo l spacePosn)
    let equalPosn := findChFrom l '=' 0
    let token1S := findChFrom l '[' 0
    let token1E := findChFrom l ']' 0
    let token2S := findChFromOpt l '[' equalPosn
    let token2E := findChFromOpt l ']' equalPosn
    let szToken1 :=
      if posLt token1S token1E then extractTok l (token1S.getD 0) token1E
      else ""
    if ¬posLt token1S token1E ∧ szCommand ≠ "END" then
      .error (.mapNeedsToken path lineNumber)
    else
      let szToken2 :=
        if posLt token2S token2E then extractTok l (token2S.getD 0) token2E
        else ""
      if szCommand == "COLUMN" then
        if currentTable == "" then .error (.mapSyntaxError path lineNumber)
        else if szToken1 == "" then .error (.mapSyntaxError path lineNumber)
        else
          match alFind w.databaseMap currentTable with
          | none => .error .codeError
          | some td =>
            if (td.columnData.find? (fun p => p.1 == szToken1)).isNone then
              .error (.mapInvalidColumnName path lineNumber)
            else if szToken2 ≠ "" then
              .ok (currentTable, w.setColumnMap currentTable szToken1 szToken2)
            else
              .ok (currentTable, w)
      else if szCommand == "TABLE" then
        if currentTable ≠ "" then .error (.mapSyntaxError path lineNumber)
        else if szToken1 == "" then .error (.mapSyntaxError path lineNumber)
        else if (alFind w.databaseMap szToken1).isNone then
          .error (.mapInvalidTableName path lineNumber)
        else if szToken2 ≠ "" then
          .ok (szToken1, w.setTableMap szToken1 szToken2)
        else
          .ok (szToken1, w)
      else if szCommand == "END" then
        if token1S.isNone ∧ token1E.isNone ∧ token2S.isNone ∧ token2E.isNone
            ∧ equalPosn.isNone then
          .ok ("", w)
        else
          .error (.mapSyntaxError path lineNumber)
      else
        .error (.mapInvalidCommand path lineNumber)
  else
    .ok (currentTable, w)

/-- The `readMapFile` loop over the remaining lines. -/
def readMapFileGo (path : String) :
    List String → Nat → String → sqlWriter → Except GCLError sqlWriter
  | [], _, _, w => .ok w
  | line :: rest, n, ct, w =>
    match processLine path n ct w line with
    | .error e => .error e
    | .ok (ct', w') => readMapFileGo path rest (n + 1) ct' w'

/-- `sqlWriter::readMapFile`, with the file contents abstracted to the list
of its lines (the `std::getline` loop); `lineNumber` starts at 1 and
`currentTable` starts empty. -/
def sqlWriter.readMapFile (w : sqlWriter) (path : String)
    (lines : List String) : Except GCLError sqlWriter :=
  readMapFileGo path lines 1 "" w

/-! ### Helper lemmas: the C++ `first`-flag loops join with separators -/

theorem sepFoldSt_snd_false (sep : String) (r : α → String) :
    ∀ l : List α, (sepFoldSt sep r l false).2 = false := by
  intro l
  induction l with
  | nil => rfl
  | cons x xs ih => simp [sepFoldSt, ih]

theorem sepFoldSt_snd (sep : String) (r : α → String) (l : List α) (b : Bool) :
    (sepFoldSt sep r l b).2 = (l.isEmpty && b) := by
  cases l with
  | nil => simp [sepFoldSt]
  | cons x xs => simp [sepFoldSt, sepFoldSt_snd_false]

theorem sepFoldSt_fst_false (sep : String) (r : α → String) :
    ∀ (x : α) (xs : List α),
      (sepFoldSt sep r (x :: xs) false).1
        = sep ++ joinSep sep ((x :: xs).map r) := by
  intro x xs
  induction xs generalizing x with
  | nil => simp [sepFoldSt, joinSep, String.append_empty]
  | cons y ys ih =>
    have hstep : (sepFoldSt sep r (x :: y :: ys) false).1
        = sep ++ r x ++ (sepFoldSt sep r (y :: ys) false).1 := by
      simp [sepFoldSt]
    rw [hstep, ih y]
    simp [joinSep, String.append_assoc]

theorem sepFold_eq_joinSep (sep : String) (r : α → String) (l : List α) :
    sepFold sep r l = joinSep sep (l.map r) := by
  cases l with
  | nil => rfl
  | cons x xs =>
    cases xs with
    | nil => simp [sepFold, sepFoldSt, joinSep, String.append_empty]
    | cons y ys =>
      have hstep : sepFold sep r (x :: y :: ys)
          = r x ++ (sepFoldSt sep r (y :: ys) false).1 := by
        simp [sepFold, sepFoldSt, String.empty_append]
      rw [hstep, sepFoldSt_fst_false]
      simp [joinSep, String.append_assoc]

theorem string_eq_empty_of_data (s : String) (h : s.data = []) : s = "" := by
  cases s with
  | mk d => cases h; rfl

theorem length_ne_zero_of_ne_empty (s : String) (h : s ≠ "") :
    s.length ≠ 0 := by
  intro hlen
  exact h (string_eq_empty_of_data s (List.length_eq_zero.mp hlen))

/-! ### Claims -/

/-- C7: `verifyOperator` returns `true` for exactly the ten whitelisted
operator strings `=`, `<>`, `!=`, `>`, `<`, `>=`, `<=`, `BETWEEN`, `LIKE`,
`IN`, and `false` for every other input string. -/
theorem C7_verifyOperator_whitelist (s : String) :
    verifyOperator s = true ↔
      s = "=" ∨ s = "<>" ∨ s = "!=" ∨ s = ">" ∨ s = "<" ∨ s = ">="
        ∨ s = "<=" ∨ s = "BETWEEN" ∨ s = "LIKE" ∨ s = "IN" := by
  simp [verifyOperator, Bool.or_eq_true, beq_iff_eq, or_assoc]

/-- C10: `string()` on a builder whose query type is `qt_none` — freshly
constructed, or after `resetQuery` — never returns a SQL string: it hits the
`default` branch of the `switch` and raises `CODE_ERROR`. -/
theorem C10_none_kind_never_renders (w : sqlWriter) :
    (w.queryType = .qt_none → w.string = .error .codeError)
      ∧ w.resetQuery.string = .error .codeError
      ∧ (initWriter w.dialect).string = .error .codeError := by
  refine ⟨fun h => ?_, rfl, rfl⟩
  simp [sqlWriter.string, h]

/-- Witness for C10 at a concrete builder with `qt_none` active. -/
theorem C10_witness :
    (initWriter .MYSQL).queryType = .qt_none
      ∧ (initWriter .MYSQL).string = .error .codeError :=
  ⟨rfl, (C10_none_kind_never_renders (initWriter .MYSQL)).1 rfl⟩

/-- C1 counterexample: the delete target table survives a kind-entering
call.  After `deleteFrom("tbl")` the builder holds `deleteTable = "tbl"`;
calling `select()` resets the query (`queryType` becomes `qt_select`), yet
`deleteTable` still holds `"tbl"` because `resetQuery` never clears it — so
a field of the prior statement survives, contradicting the claim. -/
theorem C1_counterexample :
    (((initWriter .MYSQL).deleteFrom "tbl").select).queryType = .qt_select
      ∧ (((initWriter .MYSQL).deleteFrom "tbl").select).deleteTable = "tbl"
      ∧ ("tbl" : String) ≠ "" :=
  ⟨rfl, rfl, by decide⟩

/-- The clause fields that a kind-entering call does clear (everything
`resetQuery` resets except the per-kind target tables, which are stated
separately). -/
def clauseStateCleared (w : sqlWriter) : Prop :=
  w.fromFields = [] ∧ w.joinFields = [] ∧ w.whereFields = []
    ∧ w.orderByFields = [] ∧ w.setFields = [] ∧ w.valueFields = []
    ∧ w.limitValue = none ∧ w.offsetValue = none ∧ w.countValue = none
    ∧ w.distinct_ = false ∧ w.maxFields = [] ∧ w.minFields = []

/-- C1 (amended): calling any kind-entering method while any query kind is
active — including re-entering the already-active kind — clears all
previously accumulated clause state atomically, *except* the delete target
table, which `resetQuery` does not clear: `deleteTable` survives every
kind-entering call other than `deleteFrom` (which overwrites it). -/
theorem C1_kind_entry_resets_all_but_deleteTable (w : sqlWriter)
    (t : String) (fl : List String) (h : w.queryType ≠ .qt_none) :
    (clauseStateCleared w.select ∧ w.select.selectFields = []
      ∧ w.select.insertTable = "" ∧ w.select.updateTable = ""
      ∧ w.select.deleteTable = w.deleteTable
      ∧ w.select.queryType = .qt_select)
  ∧ (clauseStateCleared (w.selectF fl) ∧ (w.selectF fl).selectFields = fl
      ∧ (w.selectF fl).insertTable = "" ∧ (w.selectF fl).updateTable = ""
      ∧ (w.selectF fl).deleteTable = w.deleteTable
      ∧ (w.selectF fl).queryType = .qt_select)
  ∧ (clauseStateCleared (w.selectT t fl)
      ∧ (w.selectT t fl).selectFields = fl.map (fun e => t ++ "." ++ e)
      ∧ (w.selectT t fl).insertTable = "" ∧ (w.selectT t fl).updateTable = ""
      ∧ (w.selectT t fl).deleteTable = w.deleteTable
      ∧ (w.selectT t fl).queryType = .qt_select)
  ∧ (clauseStateCleared (w.insertInto t) ∧ (w.insertInto t).selectFields = []
      ∧ (w.insertInto t).insertTable = t ∧ (w.insertInto t).updateTable = ""
      ∧ (w.insertInto t).deleteTable = w.deleteTable
      ∧ (w.insertInto t).queryType = .qt_insert)
  ∧ (clauseStateCleared (w.insertIntoF t fl)
      ∧ (w.insertIntoF t fl).selectFields = fl
      ∧ (w.insertIntoF t fl).insertTable = t
      ∧ (w.insertIntoF t fl).updateTable = ""
      ∧ (w.insertIntoF t fl).deleteTable = w.deleteTable
      ∧ (w.insertIntoF t fl).queryType = .qt_insert)
  ∧ (clauseStateCleared (w.update t) ∧ (w.update t).selectFields = []
      ∧ (w.update t).insertTable = "" ∧ (w.update t).updateTable = t
      ∧ (w.update t).deleteTable = w.deleteTable
      ∧ (w.update t).queryType = .qt_update)
  ∧ (clauseStateCleared (w.deleteFrom t) ∧ (w.deleteFrom t).selectFields = []
      ∧ (w.deleteFrom t).insertTable = "" ∧ (w.deleteFrom t).updateTable = ""
      ∧ (w.deleteFrom t).deleteTable = t
      ∧ (w.deleteFrom t).queryType = .qt_delete)
  ∧ (clauseStateCleared (w.upsert t) ∧ (w.upsert t).selectFields = []
      ∧ (w.upsert t).insertTable = t ∧ (w.upsert t).updateTable = ""
      ∧ (w.upsert t).deleteTable = w.deleteTable
      ∧ (w.upsert t).queryType = .qt_upsert) := by
  simp [clauseStateCleared, sqlWriter.select, sqlWriter.selectF,
    sqlWriter.selectT, sqlWriter.insertInto, sqlWriter.insertIntoF,
    sqlWriter.update, sqlWriter.deleteFrom, sqlWriter.upsert,
    sqlWriter.resetQuery, h]

/-- Witness for C1's amended theorem at a concrete builder with an active
Update kind. -/
theorem C1_witness :
    ((initWriter .MYSQL).update "u").queryType ≠ .qt_none
      ∧ clauseStateCleared (((initWriter .MYSQL).update "u").select) :=
  ⟨by decide,
   (C1_kind_entry_resets_all_but_deleteTable ((initWriter .MYSQL).update "u")
     "x" ["f"] (by decide)).1.1⟩

/-- C3: `string()` on a Select-kind builder raises
`E_SQLWRITER_NOSELECTFIELDS` when there is no projection source (no select
fields, no count expression, no min/max entries) and `E_SQLWRITER_NOFROMFIELD`
when a projection exists but there is no FROM source; `string()` on an
Update-kind builder raises the no-set-fields assertion when `setFields` is
empty.  In each case no SQL text is returned. -/
theorem C3_missing_required_clause_errors (w : sqlWriter) :
    (w.queryType = .qt_select → w.selectFields = [] → w.countValue = none →
      w.maxFields = [] → w.minFields = [] →
      w.string = .error .noSelectFields)
  ∧ (w.queryType = .qt_select → w.fromFields = [] →
      (w.selectFields ≠ [] ∨ w.countValue ≠ none ∨ w.maxFields ≠ []
        ∨ w.minFields ≠ []) →
      w.string = .error .noFromField)
  ∧ (w.queryType = .qt_update → w.setFields = [] →
      w.string = .error .noSetFields) := by
  refine ⟨fun hq h1 h2 h3 h4 => ?_, fun hq hf hp => ?_, fun hq hs => ?_⟩
  · simp [sqlWriter.string, createSelectQuery, hq, h1, h2, h3, h4]
  · rcases hp with hp | hp | hp | hp <;>
      simp [sqlWriter.string, createSelectQuery, hq, hf, hp]
  · simp [sqlWriter.string, createUpdateQuery, createSetClause, hq, hs]

/-- Witness for C3 at three concrete builders: a bare `select()`, a
`select({"a"})` with no FROM source, and an `update("t")` with no SET
fields. -/
theorem C3_witness :
    ((initWriter .MYSQL).select).string = .error .noSelectFields
      ∧ (((initWriter .MYSQL).selectF ["a"]).string = .error .noFromField)
      ∧ (((initWriter .MYSQL).update "t").string = .error .noSetFields) :=
  ⟨(C3_missing_required_clause_errors ((initWriter .MYSQL).select)).1
      rfl rfl rfl rfl rfl,
   (C3_missing_required_clause_errors
      ((initWriter .MYSQL).selectF ["a"])).2.1 rfl rfl (.inl (by decide)),
   (C3_missing_required_clause_errors
      ((initWriter .MYSQL).update "t")).2.2 rfl rfl⟩

/-- C4: for the MySQL dialect the limit clause is
`LIMIT <offset>, <limit-or-uint64-max> ` when the offset is set,
`LIMIT <limit> ` when only the limit is set, and empty when neither is set;
`limit(10).offset(5)` yields `LIMIT 5, 10 ` and `limit(10)` alone yields
`LIMIT 10 `. -/
theorem C4_mysql_limit_clause (w : sqlWriter) (o l : Nat) :
    (w.dialect = .MYSQL → w.offsetValue = some o →
      createLimitClause w =
        .ok ("LIMIT " ++ toString o ++ ", "
          ++ toString (w.limitValue.getD UINT64MAX) ++ " "))
  ∧ (w.dialect = .MYSQL → w.offsetValue = none → w.limitValue = some l →
      createLimitClause w = .ok ("LIMIT " ++ toString l ++ " "))
  ∧ (w.dialect = .MYSQL → w.offsetValue = none → w.limitValue = none →
      createLimitClause w = .ok "")
  ∧ createLimitClause (((initWriter .MYSQL).limit 10).offset 5)
      = .ok "LIMIT 5, 10 "
  ∧ createLimitClause ((initWriter .MYSQL).limit 10) = .ok "LIMIT 10 " := by
  refine ⟨fun hd ho => ?_, fun hd ho hl => ?_, fun hd ho hl => ?_, rfl, rfl⟩
  · cases hlv : w.limitValue <;>
      simp [createLimitClause, hd, ho, hlv, Option.getD]
  · simp [createLimitClause, hd, ho, hl]
  · simp [createLimitClause, hd, ho, hl]

/-- Witness for C4 at concrete builders with offset-and-limit, limit-only,
and neither. -/
theorem C4_witness :
    createLimitClause (((initWriter .MYSQL).limit 10).offset 5)
        = .ok ("LIMIT " ++ toString 5 ++ ", " ++ toString 10 ++ " ")
      ∧ createLimitClause ((initWriter .MYSQL).limit 10)
        = .ok ("LIMIT " ++ toString 10 ++ " ")
      ∧ createLimitClause (initWriter .MYSQL) = .ok "" :=
  ⟨(C4_mysql_limit_clause (((initWriter .MYSQL).limit 10).offset 5) 5 0).1
      rfl rfl,
   (C4_mysql_limit_clause ((initWriter .MYSQL).limit 10) 0 10).2.1
      rfl rfl rfl,
   (C4_mysql_limit_clause (initWriter .MYSQL) 0 0).2.2.1 rfl rfl rfl⟩

/-- C2: the code slip behind the Microsoft `TOP n` claim.  With the
Microsoft dialect and a limit set, `createSelectClause` does fold the limit
into the SELECT clause as `TOP n ` — but `createSelectQuery` then calls
`createLimitClause`, whose `switch` has no `MICROSOFT` case, so the
`default` branch raises `E_SQLWRITER_UNKNOWNDIALECT` and `string()` fails
instead of succeeding. -/
theorem C2_microsoft_top_insteadof_success :
    createSelectClause
        ((((initWriter .MICROSOFT).selectF ["a"]).from1 "t" "").limit 10)
      = "SELECT TOP 10 a"
    ∧ ((((initWriter .MICROSOFT).selectF ["a"]).from1 "t" "").limit 10).string
      = .error .unknownDialect :=
  ⟨rfl, rfl⟩

/-- C5: on every Insert-kind builder, `string()` renders
`INSERT INTO <table>(<cols>) VALUES (<row1>), (<row2>), ...` with the column
list exactly the field list stored by `insertInto` in order and the value
rows in call order; text values are single-quoted, and bind placeholders
get a `:` prefix unless their (non-empty) name already starts with `:` or
`?`; the concrete example renders exactly as claimed. -/
theorem C5_insert_query_rendering (w : sqlWriter) (n s : String) :
    (w.queryType = .qt_insert →
      w.string = .ok ("INSERT INTO " ++ w.insertTable ++ "("
        ++ joinSep ", " w.selectFields ++ ") VALUES "
        ++ joinSep ", " (w.valueFields.map (fun row =>
            "(" ++ joinSep ", " (row.map renderValue) ++ ")"))))
  ∧ renderValue (.text s) = "'" ++ s ++ "'"
  ∧ (n ≠ "" → n.data.head? ≠ some ':' → n.data.head? ≠ some '?' →
      renderValue (.bind n) = ":" ++ n)
  ∧ (n.data.head? = some ':' ∨ n.data.head? = some '?' →
      renderValue (.bind n) = n)
  ∧ (((initWriter .MYSQL).insertIntoF "t" ["a", "b"]).values
        [[.intVal 1, .intVal 2], [.intVal 3, .intVal 4]]).string
      = .ok "INSERT INTO t(a, b) VALUES (1, 2), (3, 4)" := by
  refine ⟨fun hq => ?_, rfl, fun h1 h2 h3 => ?_, fun h => ?_, rfl⟩
  · simp [sqlWriter.string, hq, createInsertQuery, sepFold_eq_joinSep,
      List.map_id]
  · cases hd : n.data with
    | nil => exact absurd (string_eq_empty_of_data n hd) h1
    | cons c cs =>
      have hc : c ≠ ':' := fun hcc => h2 (by rw [hd, hcc]; rfl)
      have hq : c ≠ '?' := fun hcc => h3 (by rw [hd, hcc]; rfl)
      simp [renderValue, strFront, hd, hc, hq]
  · rcases h with h | h <;>
    · cases hd : n.data with
      | nil => rw [hd] at h; exact absurd h (by simp)
      | cons c cs =>
        rw [hd] at h
        have hc := Option.some.inj h
        simp [renderValue, strFront, hd, hc]

/-- Witness for C5 at the claim's concrete insert builder and at concrete
bind names. -/
theorem C5_witness :
    (((initWriter .MYSQL).insertIntoF "t" ["a", "b"]).values
        [[.intVal 1, .intVal 2], [.intVal 3, .intVal 4]]).queryType
      = .qt_insert
    ∧ (((initWriter .MYSQL).insertIntoF "t" ["a", "b"]).values
        [[.intVal 1, .intVal 2], [.intVal 3, .intVal 4]]).string
      = .ok ("INSERT INTO " ++ "t" ++ "(" ++ joinSep ", " ["a", "b"]
          ++ ") VALUES "
          ++ joinSep ", " ([[SqlParameter.intVal 1, .intVal 2],
              [SqlParameter.intVal 3, .intVal 4]].map (fun row =>
                "(" ++ joinSep ", " (row.map renderValue) ++ ")")))
    ∧ renderValue (.bind "name") = ":" ++ "name"
    ∧ renderValue (.bind ":name") = ":name" :=
  ⟨rfl,
   (C5_insert_query_rendering
      (((initWriter .MYSQL).insertIntoF "t" ["a", "b"]).values
        [[.intVal 1, .intVal 2], [.intVal 3, .intVal 4]]) "n" "s").1 rfl,
   (C5_insert_query_rendering (initWriter .MYSQL) "name" "s").2.2.1
      (by decide) (by decide) (by decide),
   (C5_insert_query_rendering (initWriter .MYSQL) ":name" "s").2.2.2.1
      (.inl (by decide))⟩

/-- C8: when `whereFields` is empty, `createWhereClause` still returns the
bare `" WHERE "`, and it is appended unconditionally by the Update and
Delete renderers: a Delete-kind builder renders
`DELETE FROM <table> WHERE ` and an Update-kind builder (with at least one
SET field, as the SET clause asserts) renders
`UPDATE <table> SET ... WHERE ` — a dangling WHERE keyword with no
predicates after it. -/
theorem C8_dangling_where_on_empty_predicates (w : sqlWriter) :
    (w.whereFields = [] → createWhereClause w = " WHERE ")
  ∧ (w.queryType = .qt_delete → w.whereFields = [] →
      w.string = .ok ("DELETE FROM " ++ w.deleteTable ++ " WHERE "))
  ∧ (w.queryType = .qt_update → w.whereFields = [] → w.setFields ≠ [] →
      w.string = .ok ("UPDATE " ++ w.updateTable ++ " " ++ "SET "
        ++ joinSep ", " (w.setFields.map (fun e =>
            e.1 ++ " = " ++ renderValue e.2))
        ++ " WHERE ")) := by
  refine ⟨fun hwf => ?_, fun hq hwf => ?_, fun hq hwf hs => ?_⟩
  · simp [createWhereClause, hwf, sepFold_eq_joinSep, joinSep,
      String.append_empty]
  · simp [sqlWriter.string, hq, createDeleteQuery, getColumnMap,
      createWhereClause, hwf, sepFold_eq_joinSep, joinSep,
      String.append_empty, String.append_assoc]
  · cases hsf : w.setFields with
    | nil => exact absurd hsf hs
    | cons e es =>
      simp only [sqlWriter.string, hq, createUpdateQuery, createSetClause,
        hsf, createWhereClause, hwf, sepFold_eq_joinSep, joinSep,
        List.isEmpty_cons, List.map_nil, String.append_empty,
        String.append_assoc]
      rfl

/-- Witness for C8 at concrete Delete and Update builders with no
predicates. -/
theorem C8_witness :
    ((initWriter .MYSQL).deleteFrom "tbl").string
        = .ok ("DELETE FROM " ++ "tbl" ++ " WHERE ")
      ∧ (((initWriter .MYSQL).update "t").set1 "c" (.intVal 7)).string
        = .ok ("UPDATE " ++ "t" ++ " " ++ "SET "
            ++ joinSep ", " ([("c", SqlParameter.intVal 7)].map (fun e =>
                e.1 ++ " = " ++ renderValue e.2))
            ++ " WHERE ") :=
  ⟨(C8_dangling_where_on_empty_predicates
      ((initWriter .MYSQL).deleteFrom "tbl")).2.1 rfl rfl,
   (C8_dangling_where_on_empty_predicates
      (((initWriter .MYSQL).update "t").set1 "c" (.intVal 7))).2.2
      rfl rfl (by decide)⟩

/-- C9: the alias stored by `from(table, alias)` never reaches the output.
`createFromClause` emits, per source, the table name followed — when the
stored alias is non-empty — by the literal `" AS "` and the (never-assigned,
hence empty) local `tableAlias`: the output depends only on whether each
alias is empty, two builders differing only in their non-empty alias text
render identically, and the full `string()` of a select over an aliased
table ends in `" AS "` with no alias text. -/
theorem C9_from_alias_text_never_rendered (w : sqlWriter) (t a a2 : String) :
    (createFromClause w = " FROM "
      ++ joinSep ", " (w.fromFields.map (fun p =>
          p.1 ++ (if p.2.length ≠ 0 then " AS " else ""))))
  ∧ (a ≠ "" →
      createFromClause ((initWriter .MYSQL).from1 t a)
        = " FROM " ++ t ++ " AS ")
  ∧ (a ≠ "" → a2 ≠ "" →
      createFromClause ((initWriter .MYSQL).from1 t a)
        = createFromClause ((initWriter .MYSQL).from1 t a2))
  ∧ (a ≠ "" →
      (((initWriter .MYSQL).selectF ["x"]).from1 t a).string
        = .ok ("SELECT x FROM " ++ t ++ " AS ")) := by
  have key : ∀ b : String, b ≠ "" →
      createFromClause ((initWriter .MYSQL).from1 t b)
        = " FROM " ++ t ++ " AS " := by
    intro b hb
    have hlen := length_ne_zero_of_ne_empty b hb
    simp [createFromClause, sqlWriter.from1, initWriter, sepFold_eq_joinSep,
      joinSep, fromEntry, hlen, String.append_assoc]
  refine ⟨?_, fun ha => key a ha, fun ha ha2 => ?_, fun ha => ?_⟩
  · have hfe : fromEntry = fun p : String × String =>
        p.1 ++ (if p.2.length ≠ 0 then " AS " else "") := by
      funext p; rfl
    rw [createFromClause, sepFold_eq_joinSep, hfe]
  · rw [key a ha, key a2 ha2]
  · have hlen := length_ne_zero_of_ne_empty a ha
    simp only [sqlWriter.string, sqlWriter.selectF, sqlWriter.select,
      sqlWriter.from1, initWriter, createSelectQuery, createSelectClause,
      createFromClause, createLimitClause, sepFold, sepFoldSt, fromEntry,
      hlen, ne_eq, not_false_eq_true, if_true, ite_true, ite_false,
      String.append_empty, String.empty_append, String.append_assoc]
    rfl

/-- Witness for C9 at a concrete non-empty alias. -/
theorem C9_witness :
    ("myalias" : String) ≠ ""
      ∧ (((initWriter .MYSQL).selectF ["x"]).from1 "t" "myalias").string
        = .ok ("SELECT x FROM " ++ "t" ++ " AS ")
      ∧ createFromClause ((initWriter .MYSQL).from1 "t" "myalias")
        = createFromClause ((initWriter .MYSQL).from1 "t" "other") :=
  ⟨by decide,
   (C9_from_alias_text_never_rendered (initWriter .MYSQL) "t" "myalias"
      "other").2.2.2 (by decide),
   (C9_from_alias_text_never_rendered (initWriter .MYSQL) "t" "myalias"
      "other").2.2.1 (by decide) (by decide)⟩

/-- C6: a `COLUMN` directive while no `TABLE` scope is open makes
`readMapFile` raise a syntax error carrying the file path and the 1-based
line number — both for an arbitrary line position (first conjunct) and for
a concrete file where the `COLUMN` line is the third physical line, after a
comment line and a too-short line (second conjunct: the reported number is
3, the 1-based position).  A well-formed `TABLE [t]=[tbl]` /
`COLUMN [c]=[col]` / `END` sequence, with `t` and `c` pre-declared via
`createTable` and `createColumn`, completes without error and records
`tbl` and `col` as the physical mappings of `t` and `c`. -/
theorem C6_mapfile_column_scope_and_success (path : String) (n : Nat)
    (w : sqlWriter) :
    processLine path n "" w "COLUMN [c]=[col]"
        = .error (.mapSyntaxError path n)
  ∧ w.readMapFile path [";comment", "x", "COLUMN [c]=[col]"]
        = .error (.mapSyntaxError path 3)
  ∧ (∃ w3,
      ((((initWriter .MYSQL).createTable "t").2.createColumn "t" "c").2
          ).readMapFile path ["TABLE [t]=[tbl]", "COLUMN [c]=[col]", "END"]
        = .ok w3
      ∧ tableMapOf w3 "t" = some "tbl"
      ∧ columnMapOf w3 "t" "c" = some "col") := by
  refine ⟨rfl, rfl, ⟨_, rfl, rfl, rfl⟩⟩
